import Mathlib

/-!
Shallow embedding of the screencast service
(`js/dbusServices/screencast/screencastService.js`): the `Recorder`
coordinator with its pipeline/session state machines and unified
fatal-error path, the `ScreencastService` registry with its keep-alive
counter, the file-path template expansion, and the three exposed D-Bus
operations.  External effects (GStreamer calls, D-Bus calls, promise
resolution, logging) are recorded as an explicit trace of `Action`s.
-/

namespace Screencast

/-- Source enum `PipelineState`: lifecycle of the local GStreamer
pipeline. -/
inductive PipelineState where
  | INIT
  | PLAYING
  | FLUSHING
  | STOPPED
  | ERROR
deriving DecidableEq, Repr

/-- String name of a pipeline state, as interpolated into the GStreamer
error message (the JS enum values are these strings). -/
def PipelineState.name : PipelineState → String
  | .INIT => "INIT"
  | .PLAYING => "PLAYING"
  | .FLUSHING => "FLUSHING"
  | .STOPPED => "STOPPED"
  | .ERROR => "ERROR"

/-- Source enum `SessionState`: lifecycle of the remote
ScreenCast session relationship. -/
inductive SessionState where
  | INIT
  | ACTIVE
  | STOPPED
deriving DecidableEq, Repr

/-- Observable external effects performed by the Recorder and the
service: GStreamer pipeline calls, D-Bus calls, promise settlement and
log lines. -/
inductive Action where
  | setPipelineNull
  | unwatchName
  | sessionStopSync
  | logError (msg : String)
  | logWarning (msg : String)
  | notifyRegistry
  | rejectStart
  | rejectStop
  | resolveStart
  | resolveStop
  | addRecentItem
  | sendEOSEvent
deriving DecidableEq, Repr

/-- The mutable fields of a `Recorder` instance that the lifecycle
methods read and write.  `hasPipeline` models `this._pipeline !== null`;
`nameWatchId` models `this._nameWatchId` (`0` once unwatched);
the three `has…` booleans model presence of `this._onErrorCallback`,
`this._startRequest` and `this._stopRequest` (deleted fields are
`false`). -/
structure Recorder where
  pipelineState : PipelineState
  sessionState : SessionState
  hasPipeline : Bool
  nameWatchId : Nat
  hasOnErrorCallback : Bool
  hasStartRequest : Bool
  hasStopRequest : Bool
deriving DecidableEq, Repr

/-- Source `Recorder._teardownPipeline`: no-op without a pipeline; otherwise
set the pipeline to NULL, record state `STOPPED` and drop the
pipeline. -/
def teardownPipeline (r : Recorder) : Recorder × List Action :=
  if r.hasPipeline then
    ({ r with pipelineState := .STOPPED, hasPipeline := false }, [.setPipelineNull])
  else
    (r, [])

/-- Source `Recorder._unwatchSender`: release the name watch if one is held. -/
def unwatchSender (r : Recorder) : Recorder × List Action :=
  if r.nameWatchId ≠ 0 then
    ({ r with nameWatchId := 0 }, [.unwatchName])
  else
    (r, [])

/-- Source `Recorder._stopSession`: call `StopSync` on the session proxy, but
only when the session is `ACTIVE` (marking it `STOPPED` first). -/
def stopSession (r : Recorder) : Recorder × List Action :=
  if r.sessionState = .ACTIVE then
    ({ r with sessionState := .STOPPED }, [.sessionStopSync])
  else
    (r, [])

/-- Source `Recorder._bailOutOnError`: the unified fatal-error path.  In
source order: tear down the pipeline, unwatch the sender, stop the
session, log, invoke (and delete) the on-error callback, reject (and
delete) the pending start request, reject (and delete) the pending
stop request. -/
def bailOutOnError (msg : String) (r : Recorder) : Recorder × List Action :=
  let p1 := teardownPipeline r
  let p2 := unwatchSender p1.1
  let p3 := stopSession p2.1
  let p4 : Recorder × List Action :=
    if p3.1.hasOnErrorCallback then
      ({ p3.1 with hasOnErrorCallback := false }, [.notifyRegistry])
    else
      (p3.1, [])
  let p5 : Recorder × List Action :=
    if p4.1.hasStartRequest then
      ({ p4.1 with hasStartRequest := false }, [.rejectStart])
    else
      (p4.1, [])
  let p6 : Recorder × List Action :=
    if p5.1.hasStopRequest then
      ({ p5.1 with hasStopRequest := false }, [.rejectStop])
    else
      (p5.1, [])
  (p6.1, p1.2 ++ p2.2 ++ p3.2 ++ [.logError msg] ++ p4.2 ++ p5.2 ++ p6.2)

/-- Source `Recorder._handleFatalPipelineError`: mark the pipeline state
`ERROR`, then run the unified error path. -/
def handleFatalPipelineError (msg : String) (r : Recorder) : Recorder × List Action :=
  bailOutOnError ("Fatal pipeline error: " ++ msg) { r with pipelineState := .ERROR }

/-- Source `Recorder._senderVanished`: the sender-liveness watch fired. -/
def senderVanished (r : Recorder) : Recorder × List Action :=
  bailOutOnError "Sender has vanished" r

/-- Source `Recorder._onSessionClosed`: ignore a close we initiated ourselves
(session already `STOPPED`); otherwise mark the session `STOPPED` and
run the unified error path. -/
def onSessionClosed (r : Recorder) : Recorder × List Action :=
  if r.sessionState = .STOPPED then
    (r, [])
  else
    bailOutOnError "Session closed unexpectedly" { r with sessionState := .STOPPED }

/-- Source `Recorder.stopRecording`: rejected immediately while a start is
still pending; otherwise record a stop request, move the pipeline to
`FLUSHING` and send an end-of-stream event.  The `Except` value is the
settlement that is immediately visible to the caller (`.error` is the
immediate rejection; `.ok` means a pending promise was created). -/
def stopRecording (r : Recorder) : Recorder × List Action × Except String Unit :=
  if r.hasStartRequest then
    (r, [], .error "Unable to stop recorder while still starting")
  else
    ({ r with hasStopRequest := true, pipelineState := .FLUSHING },
      [.sendEOSEvent], .ok ())

/-- Source `Recorder._onBusMessage`, `Gst.MessageType.STATE_CHANGED` case for
a message whose new state is `PLAYING`: resolve the pending start
request when the pipeline itself reports `PLAYING` while in `INIT`. -/
def busMessageStateChangedPlaying (srcIsPipeline : Bool) (r : Recorder) :
    Recorder × List Action :=
  if r.pipelineState = .INIT ∧ srcIsPipeline then
    ({ r with pipelineState := .PLAYING, hasStartRequest := false }, [.resolveStart])
  else
    (r, [])

/-- Source `Recorder._onBusMessage`, `Gst.MessageType.EOS` case: dispatched on
the current pipeline state. -/
def busMessageEOS (r : Recorder) : Recorder × List Action :=
  match r.pipelineState with
  | .STOPPED => (r, [])
  | .ERROR => (r, [])
  | .PLAYING =>
    let p := handleFatalPipelineError "Unexpected EOS message" r
    (p.1, .addRecentItem :: p.2)
  | .INIT =>
    handleFatalPipelineError "Unexpected EOS message while in state INIT" r
  | .FLUSHING =>
    let p1 := teardownPipeline r
    let p2 := unwatchSender p1.1
    let p3 := stopSession p2.1
    ({ p3.1 with hasStopRequest := false },
      .addRecentItem :: (p1.2 ++ p2.2 ++ p3.2 ++ [.resolveStop]))

/-- Source `Recorder._onBusMessage`, `Gst.MessageType.ERROR` case: ignored in
`STOPPED`/`ERROR`, fatal in every other state. -/
def busMessageError (errText : String) (r : Recorder) : Recorder × List Action :=
  match r.pipelineState with
  | .STOPPED => (r, [])
  | .ERROR => (r, [])
  | s =>
    handleFatalPipelineError
      ("GStreamer error while in state " ++ s.name ++ ": " ++ errText) r

/-! ## The `ScreencastService` registry -/

/-- The registry state of `ScreencastService`: the key set of the
`this._recorders` map (`Map` keys in insertion order; the mapped
`Recorder` objects play no role in the counter logic) and the
process keep-alive count maintained through `hold()`/`release()`. -/
structure Registry where
  recorders : List String
  holdCount : Nat
deriving DecidableEq, Repr

/-- JavaScript `Map.prototype.set` on the key set: inserting an
existing key replaces its value and leaves the size unchanged. -/
def mapSet (m : List String) (k : String) : List String :=
  if m.contains k then m else m ++ [k]

/-- JavaScript `Map.prototype.delete` on the key set: returns whether
the key was present, together with the remaining keys. -/
def mapDelete (m : List String) (k : String) : Bool × List String :=
  if m.contains k then (true, m.filter (fun x => x ≠ k)) else (false, m)

/-- Source `ScreencastService._addRecorder`: `set` the sender, then `hold()`
when the map size is exactly 1. -/
def addRecorder (reg : Registry) (sender : String) : Registry :=
  let m := mapSet reg.recorders sender
  if m.length = 1 then
    { recorders := m, holdCount := reg.holdCount + 1 }
  else
    { recorders := m, holdCount := reg.holdCount }

/-- Source `ScreencastService._removeRecorder`: return unchanged when the
sender is absent; otherwise delete it and `release()` when the map
became empty. -/
def removeRecorder (reg : Registry) (sender : String) : Registry :=
  let d := mapDelete reg.recorders sender
  if d.1 then
    if d.2.length = 0 then
      { recorders := d.2, holdCount := reg.holdCount - 1 }
    else
      { recorders := d.2, holdCount := reg.holdCount }
  else
    reg

/-- A sequence of registry mutations, as issued by the service. -/
inductive RegOp where
  | add (sender : String)
  | remove (sender : String)
deriving DecidableEq, Repr

/-- Run a sequence of registry mutations. -/
def runRegOps (reg : Registry) : List RegOp → Registry
  | [] => reg
  | .add s :: rest => runRegOps (addRecorder reg s) rest
  | .remove s :: rest => runRegOps (removeRecorder reg s) rest

/-- The call discipline the service enforces on `_addRecorder`: the
`Screencast`/`ScreencastArea` handlers return early when
`this._recorders.get(sender)` is set, so every add targets a sender
that is not currently registered. -/
def guardedOps (reg : Registry) : List RegOp → Bool
  | [] => true
  | .add s :: rest =>
    !reg.recorders.contains s && guardedOps (addRecorder reg s) rest
  | .remove s :: rest => guardedOps (removeRecorder reg s) rest

/-! ## File-path template expansion -/

/-- Accumulator of `ScreencastService._generateFilePath`: the filename
built so far, the pending-escape flag, and the characters for which an
unknown-escape warning was logged. -/
structure GenAcc where
  filename : String
  escape : Bool
  warnings : List Char
deriving DecidableEq, Repr

/-- One character step of `_generateFilePath`.  `fmt` stands for
`GLib.DateTime.new_now_local().format`, applied to the format strings
the source passes (`%Y-%m-%d` for `%d`, `%H-%M-%S` for `%t`). -/
def processTemplateChar (fmt : String → String) (acc : GenAcc) (c : Char) : GenAcc :=
  if acc.escape then
    if c = '%' then
      { acc with filename := acc.filename ++ "%", escape := false }
    else if c = 'd' then
      { acc with filename := acc.filename ++ fmt "%Y-%m-%d", escape := false }
    else if c = 't' then
      { acc with filename := acc.filename ++ fmt "%H-%M-%S", escape := false }
    else
      { acc with warnings := acc.warnings ++ [c], escape := false }
  else if c = '%' then
    { acc with escape := true }
  else
    { acc with filename := acc.filename.push c }

/-- Source `ScreencastService._generateFilePath`, up to the final
`_getAbsolutePath` resolution: expand the template, appending a
literal `%` when the template ends mid-escape. -/
def generateFilename (fmt : String → String) (template : String) : GenAcc :=
  let acc := template.toList.foldl (processTemplateChar fmt) ⟨"", false, []⟩
  if acc.escape then
    { acc with filename := acc.filename ++ "%" }
  else
    acc

/-! ## The exposed D-Bus operations -/

/-- How a D-Bus method handler ended: either `invocation.return_value`
was called with a `(success, path)` reply, or an exception escaped the
async handler and the invocation was never resolved. -/
inductive CallOutcome where
  | returned (ok : Bool) (path : String)
  | threw (msg : String)
deriving DecidableEq, Repr

/-- Returns `true` iff the handler resolved the invocation with a reply. -/
def CallOutcome.isReturned : CallOutcome → Bool
  | .returned _ _ => true
  | .threw _ => false

/-- The outcomes of the external steps a `Screencast`/`ScreencastArea`
call performs: the lockdown setting, the `CreateSessionSync` D-Bus
call, the `new Recorder(...)` constructor, and the awaited
`startRecording()` promise. -/
structure ScreencastCallEnv where
  lockdownDisableSaveToDisk : Bool
  createSessionResult : Except String String
  recorderCtorResult : Except String Unit
  startRecordingResult : Except String Unit
deriving Repr

/-- Source `ScreencastService.ScreencastAsync`: reply `(false, '')` on
lockdown or an already-active sender; `CreateSessionSync` is called
outside any `try`, so its failure escapes the handler; a `Recorder`
constructor failure replies `(false, '')`; after `_addRecorder`, a
`startRecording` failure removes the recorder and replies
`(false, '')`, and success replies `(true, filePath)`. -/
def screencastAsync (env : ScreencastCallEnv) (reg : Registry) (sender : String)
    (fmt : String → String) (fileTemplate : String) : Registry × CallOutcome :=
  if env.lockdownDisableSaveToDisk then
    (reg, .returned false "")
  else if reg.recorders.contains sender then
    (reg, .returned false "")
  else
    match env.createSessionResult with
    | .error e => (reg, .threw e)
    | .ok _ =>
      let filePath := (generateFilename fmt fileTemplate).filename
      match env.recorderCtorResult with
      | .error _ => (reg, .returned false "")
      | .ok _ =>
        let reg1 := addRecorder reg sender
        match env.startRecordingResult with
        | .error _ => (removeRecorder reg1 sender, .returned false "")
        | .ok _ => (reg1, .returned true filePath)

/-- Source `ScreencastService.ScreencastAreaAsync`: identical control flow to
`ScreencastAsync` (the capture geometry `x, y, width, height` only
parameterizes the recorder, never the control flow). -/
def screencastAreaAsync (env : ScreencastCallEnv) (reg : Registry) (sender : String)
    (_x _y _width _height : Int) (fmt : String → String) (fileTemplate : String) :
    Registry × CallOutcome :=
  if env.lockdownDisableSaveToDisk then
    (reg, .returned false "")
  else if reg.recorders.contains sender then
    (reg, .returned false "")
  else
    match env.createSessionResult with
    | .error e => (reg, .threw e)
    | .ok _ =>
      let filePath := (generateFilename fmt fileTemplate).filename
      match env.recorderCtorResult with
      | .error _ => (reg, .returned false "")
      | .ok _ =>
        let reg1 := addRecorder reg sender
        match env.startRecordingResult with
        | .error _ => (removeRecorder reg1 sender, .returned false "")
        | .ok _ => (reg1, .returned true filePath)

/-- Source `ScreencastService.StopScreencastAsync`: reply `(false)` leaving
everything untouched when the sender has no recorder; otherwise await
`stopRecording()`, log (and swallow) its failure, and in the `finally`
remove the recorder and reply `(true)`. -/
def stopScreencastAsync (reg : Registry) (sender : String)
    (stopRecordingResult : Except String Unit) : Registry × Bool × List Action :=
  if reg.recorders.contains sender then
    let logs : List Action :=
      match stopRecordingResult with
      | .error e => [.logError ("Error while stopping recorder: " ++ e)]
      | .ok _ => []
    (removeRecorder reg sender, true, logs)
  else
    (reg, false, [])

/-! ## Helper lemmas -/

/-- Closed form of the unified error path: final state and emitted
trace, for any starting state. -/
lemma bailOutOnError_eq (msg : String) (r : Recorder) :
    bailOutOnError msg r =
      ({ pipelineState := if r.hasPipeline then .STOPPED else r.pipelineState,
         sessionState := if r.sessionState = .ACTIVE then .STOPPED else r.sessionState,
         hasPipeline := false,
         nameWatchId := 0,
         hasOnErrorCallback := false,
         hasStartRequest := false,
         hasStopRequest := false },
       (if r.hasPipeline then [Action.setPipelineNull] else []) ++
       (if r.nameWatchId ≠ 0 then [Action.unwatchName] else []) ++
       (if r.sessionState = .ACTIVE then [Action.sessionStopSync] else []) ++
       [Action.logError msg] ++
       (if r.hasOnErrorCallback then [Action.notifyRegistry] else []) ++
       (if r.hasStartRequest then [Action.rejectStart] else []) ++
       (if r.hasStopRequest then [Action.rejectStop] else [])) := by
  obtain ⟨ps, ss, hp, id, cb, sr, st⟩ := r
  cases hp <;> cases cb <;> cases sr <;> cases st <;> rcases ss <;>
    by_cases h : id = 0 <;>
      simp [bailOutOnError, teardownPipeline, unwatchSender, stopSession, h]

end Screencast

namespace Screencast

/-! ## Claim theorems -/

/-- A Recorder in mid-recording shape: pipeline playing, session
active, sender watch held, registry callback present, a pending start
request and no pending stop request. -/
def recPlayingStartPending : Recorder :=
  { pipelineState := .PLAYING, sessionState := .ACTIVE, hasPipeline := true,
    nameWatchId := 1, hasOnErrorCallback := true, hasStartRequest := true,
    hasStopRequest := false }

/-- C1 counterexample: triggered by sender-vanished on a fully
populated Recorder, the unified error path emits
`notifyRegistry` *before* `rejectStart` — the claim's order (reject
the pending outcome, then notify the owning registry) is not the
code's order. -/
theorem c1_counterexample :
    (senderVanished recPlayingStartPending).2 =
      [Action.setPipelineNull, Action.unwatchName, Action.sessionStopSync,
       Action.logError "Sender has vanished", Action.notifyRegistry,
       Action.rejectStart] ∧
    (senderVanished recPlayingStartPending).2 ≠
      [Action.setPipelineNull, Action.unwatchName, Action.sessionStopSync,
       Action.logError "Sender has vanished", Action.rejectStart,
       Action.notifyRegistry] ∧
    List.indexOf Action.notifyRegistry (senderVanished recPlayingStartPending).2 <
      List.indexOf Action.rejectStart (senderVanished recPlayingStartPending).2 := by
  decide

/-- C1 (amended): the unified fatal-error path performs, in a fixed
order independent of which of the three failure origins triggered it:
tear down the local pipeline (if one exists), stop watching sender
liveness, request remote-session stop (only if the session is Active),
log the error, notify the owning registry, then reject the pending
start outcome followed by the pending stop outcome; and each of the
three origins routes into this same path. -/
theorem c1_unified_error_path_order (r : Recorder) (msg gstMsg : String) :
    (bailOutOnError msg r).2 =
      (if r.hasPipeline then [Action.setPipelineNull] else []) ++
      (if r.nameWatchId ≠ 0 then [Action.unwatchName] else []) ++
      (if r.sessionState = .ACTIVE then [Action.sessionStopSync] else []) ++
      [Action.logError msg] ++
      (if r.hasOnErrorCallback then [Action.notifyRegistry] else []) ++
      (if r.hasStartRequest then [Action.rejectStart] else []) ++
      (if r.hasStopRequest then [Action.rejectStop] else []) ∧
    senderVanished r = bailOutOnError "Sender has vanished" r ∧
    handleFatalPipelineError gstMsg r =
      bailOutOnError ("Fatal pipeline error: " ++ gstMsg)
        { r with pipelineState := .ERROR } ∧
    (r.sessionState ≠ .STOPPED →
      onSessionClosed r =
        bailOutOnError "Session closed unexpectedly"
          { r with sessionState := .STOPPED }) := by
  refine ⟨?_, rfl, rfl, ?_⟩
  · rw [bailOutOnError_eq]
  · intro h
    rw [onSessionClosed, if_neg h]

/-- C1 witness: the session-closed origin routes into the unified
error path at a concrete Active-session Recorder. -/
theorem c1_witness :
    onSessionClosed recPlayingStartPending =
      bailOutOnError "Session closed unexpectedly"
        { recPlayingStartPending with sessionState := .STOPPED } :=
  (c1_unified_error_path_order recPlayingStartPending "m" "g").2.2.2 (by decide)

/-- C4: while a start request is still pending, `stopRecording` fails
immediately with the in-progress error, changes no state (in
particular neither `pipelineState` nor `sessionState`), requests no
flush and records no stop outcome. -/
theorem c4_stop_while_start_pending (r : Recorder)
    (h : r.hasStartRequest = true) :
    stopRecording r =
      (r, [], .error "Unable to stop recorder while still starting") := by
  rw [stopRecording, if_pos h]

/-- C4 witness: `stopRecording` on a concrete Recorder with a pending
start request rejects immediately and leaves the state untouched. -/
theorem c4_witness :
    stopRecording recPlayingStartPending =
      (recPlayingStartPending, [],
        .error "Unable to stop recorder while still starting") :=
  c4_stop_while_start_pending recPlayingStartPending (by decide)

/-- C2: after a fatal pipeline error has been handled while the
pipeline was Playing and the session Active, every later trigger of
the unified error path is a no-op: a session-closed notification and
pipeline bus messages change nothing and emit nothing, and running the
unified error path itself again (as the sender-vanished origin does)
leaves the state unchanged and emits only a log line — no resource is
released twice and no outcome is rejected a second time. -/
theorem c2_error_path_idempotent (r : Recorder) (msg : String)
    (_h1 : r.pipelineState = .PLAYING) (h2 : r.sessionState = .ACTIVE) :
    onSessionClosed (handleFatalPipelineError msg r).1 =
      ((handleFatalPipelineError msg r).1, []) ∧
    busMessageEOS (handleFatalPipelineError msg r).1 =
      ((handleFatalPipelineError msg r).1, []) ∧
    (∀ e, busMessageError e (handleFatalPipelineError msg r).1 =
      ((handleFatalPipelineError msg r).1, [])) ∧
    (∀ m, bailOutOnError m (handleFatalPipelineError msg r).1 =
      ((handleFatalPipelineError msg r).1, [Action.logError m])) ∧
    (senderVanished (handleFatalPipelineError msg r).1).1 =
      (handleFatalPipelineError msg r).1 := by
  have hpost : (handleFatalPipelineError msg r).1 =
      { pipelineState := if r.hasPipeline then .STOPPED else .ERROR,
        sessionState := .STOPPED, hasPipeline := false, nameWatchId := 0,
        hasOnErrorCallback := false, hasStartRequest := false,
        hasStopRequest := false } := by
    rw [handleFatalPipelineError, bailOutOnError_eq]
    simp [h2]
  rw [hpost]
  cases hhp : r.hasPipeline <;>
    simp [onSessionClosed, busMessageEOS, busMessageError, senderVanished,
      bailOutOnError_eq]

/-- C2 witness: at a concrete mid-recording Recorder, a session-closed
notification after a handled fatal pipeline error is a complete
no-op. -/
theorem c2_witness :
    onSessionClosed (handleFatalPipelineError "boom" recPlayingStartPending).1 =
      ((handleFatalPipelineError "boom" recPlayingStartPending).1, []) :=
  (c2_error_path_idempotent recPlayingStartPending "boom" (by decide)
    (by decide)).1

/-- C3: an end-of-stream bus message is dispatched exactly by the
current pipeline state — ignored in Stopped and Error, a fatal error
in Playing (with the output registered as a recent item first) and in
Init, and in Flushing the success path that resolves the pending stop
outcome (never rejecting anything) and releases the pipeline, the
sender watch and the session. -/
theorem c3_eos_dispatch (r : Recorder) :
    (r.pipelineState = .STOPPED → busMessageEOS r = (r, [])) ∧
    (r.pipelineState = .ERROR → busMessageEOS r = (r, [])) ∧
    (r.pipelineState = .PLAYING →
      busMessageEOS r =
        ((handleFatalPipelineError "Unexpected EOS message" r).1,
          .addRecentItem ::
            (handleFatalPipelineError "Unexpected EOS message" r).2)) ∧
    (r.pipelineState = .INIT →
      busMessageEOS r =
        handleFatalPipelineError "Unexpected EOS message while in state INIT" r) ∧
    (r.pipelineState = .FLUSHING →
      (busMessageEOS r).1.hasPipeline = false ∧
      (busMessageEOS r).1.nameWatchId = 0 ∧
      (busMessageEOS r).1.sessionState ≠ .ACTIVE ∧
      (busMessageEOS r).1.hasStopRequest = false ∧
      Action.resolveStop ∈ (busMessageEOS r).2 ∧
      Action.rejectStop ∉ (busMessageEOS r).2 ∧
      Action.rejectStart ∉ (busMessageEOS r).2) := by
  obtain ⟨ps, ss, hp, id, cb, sr, st⟩ := r
  refine ⟨?_, ?_, ?_, ?_, ?_⟩ <;> intro h <;> subst h <;>
    cases hp <;> rcases ss <;> by_cases hid : id = 0 <;>
      simp [busMessageEOS, teardownPipeline, unwatchSender, stopSession, hid]

/-- A Recorder flushing out its recording: pipeline flushing, session
active, sender watch held, pending stop request. -/
def recFlushing : Recorder :=
  { pipelineState := .FLUSHING, sessionState := .ACTIVE, hasPipeline := true,
    nameWatchId := 1, hasOnErrorCallback := true, hasStartRequest := false,
    hasStopRequest := true }

/-- C3 witness: the Flushing success path at a concrete Recorder. -/
theorem c3_witness :
    (busMessageEOS recFlushing).1.hasPipeline = false ∧
    (busMessageEOS recFlushing).1.nameWatchId = 0 ∧
    (busMessageEOS recFlushing).1.sessionState ≠ .ACTIVE ∧
    (busMessageEOS recFlushing).1.hasStopRequest = false ∧
    Action.resolveStop ∈ (busMessageEOS recFlushing).2 ∧
    Action.rejectStop ∉ (busMessageEOS recFlushing).2 ∧
    Action.rejectStart ∉ (busMessageEOS recFlushing).2 :=
  (c3_eos_dispatch recFlushing).2.2.2.2 (by decide)

/-- A Recorder in mid-recording shape with a pending stop request
(flush already requested is not required; the fatal error hits while
Playing). -/
def recPlayingStopPending : Recorder :=
  { pipelineState := .PLAYING, sessionState := .ACTIVE, hasPipeline := true,
    nameWatchId := 1, hasOnErrorCallback := true, hasStartRequest := false,
    hasStopRequest := true }

/-- C6 counterexample: a fatal pipeline signal while Playing with a
live pipeline sets `pipelineState` to Error, but the unified error
path's own teardown immediately overwrites it with Stopped — Error is
not terminal. -/
theorem c6_counterexample :
    (bailOutOnError "boom"
      { recPlayingStopPending with pipelineState := .ERROR }).1.pipelineState =
        PipelineState.STOPPED ∧
    (handleFatalPipelineError "boom" recPlayingStopPending).1.pipelineState =
      PipelineState.STOPPED ∧
    PipelineState.STOPPED ≠ PipelineState.ERROR := by
  decide

/-- C6 (amended): `pipelineState` follows
Init → Playing → Flushing → Stopped along the normal path, and a fatal
pipeline signal from any state sets it to Error — but Error is then
immediately overwritten to Stopped by the teardown whenever a local
pipeline exists; Error persists only when no pipeline exists at the
time of the fatal signal, in which case later session-closed and bus
events leave it unchanged. -/
theorem c6_pipeline_state_amended (r : Recorder) (msg : String) :
    (handleFatalPipelineError msg r).1.pipelineState =
      (if r.hasPipeline then .STOPPED else .ERROR) ∧
    (r.pipelineState = .ERROR → r.hasPipeline = false →
      (onSessionClosed r).1.pipelineState = .ERROR ∧
      busMessageEOS r = (r, []) ∧
      (∀ e, busMessageError e r = (r, []))) ∧
    (r.pipelineState = .INIT →
      (busMessageStateChangedPlaying true r).1.pipelineState = .PLAYING) ∧
    (r.hasStartRequest = false →
      (stopRecording r).1.pipelineState = .FLUSHING) ∧
    (r.pipelineState = .FLUSHING →
      (busMessageEOS r).1.pipelineState =
        (if r.hasPipeline then .STOPPED else .FLUSHING)) := by
  obtain ⟨ps, ss, hp, id, cb, sr, st⟩ := r
  refine ⟨?_, ?_, ?_, ?_, ?_⟩
  · rw [handleFatalPipelineError, bailOutOnError_eq]
  · intro h1 h2
    subst h1 h2
    rcases ss <;>
      simp [onSessionClosed, busMessageEOS, busMessageError, bailOutOnError_eq]
  · intro h
    subst h
    simp [busMessageStateChangedPlaying]
  · intro h
    subst h
    simp [stopRecording]
  · intro h
    subst h
    cases hp <;> rcases ss <;> by_cases hid : id = 0 <;>
      simp [busMessageEOS, teardownPipeline, unwatchSender, stopSession, hid]

/-- C6 witness: the amended characterization at a concrete
mid-recording Recorder — the fatal-error handler ends in Stopped
because a pipeline exists, and a stop request moves the pipeline to
Flushing. -/
theorem c6_witness :
    (handleFatalPipelineError "boom" recFlushing).1.pipelineState =
      (if recFlushing.hasPipeline then .STOPPED else .ERROR) ∧
    (stopRecording recFlushing).1.pipelineState = .FLUSHING :=
  ⟨(c6_pipeline_state_amended recFlushing "boom").1,
    (c6_pipeline_state_amended recFlushing "boom").2.2.2.1 (by decide)⟩

/-- A call environment in which the `CreateSessionSync` D-Bus call to
the compositor fails and everything else would succeed. -/
def envSessionFail : ScreencastCallEnv :=
  { lockdownDisableSaveToDisk := false,
    createSessionResult := .error "CreateSession failed",
    recorderCtorResult := .ok (), startRecordingResult := .ok () }

/-- The registry with no active recorders and a zero keep-alive
count. -/
def emptyRegistry : Registry := { recorders := [], holdCount := 0 }

/-- C5 counterexample: when `CreateSessionSync` fails, both recording
operations let the exception escape the handler instead of resolving
the invocation with a boolean success flag — remote-session creation
failure is *not* collapsed into a returned flag. -/
theorem c5_counterexample :
    (screencastAsync envSessionFail emptyRegistry ":1.7" (fun s => s)
      "rec.webm").2 = .threw "CreateSession failed" ∧
    (screencastAsync envSessionFail emptyRegistry ":1.7" (fun s => s)
      "rec.webm").2.isReturned = false ∧
    (screencastAreaAsync envSessionFail emptyRegistry ":1.7" 0 0 100 100
      (fun s => s) "rec.webm").2 = .threw "CreateSession failed" ∧
    (screencastAreaAsync envSessionFail emptyRegistry ":1.7" 0 0 100 100
      (fun s => s) "rec.webm").2.isReturned = false := by
  decide

/-- C5 (amended): provided the remote-session creation call succeeds,
both recording operations always resolve the invocation with a boolean
success flag — lockdown policy, an already-active client, recorder
construction failure and start failure are all collapsed into a
`(false, "")` reply, and success yields `(true, resolvedPath)`; a
remote-session creation failure, by contrast, escapes the handler. -/
theorem c5_control_surface_amended (env : ScreencastCallEnv) (reg : Registry)
    (sender : String) (x y w h : Int) (fmt : String → String) (tpl : String)
    (hs : ∃ p, env.createSessionResult = .ok p) :
    (screencastAsync env reg sender fmt tpl).2.isReturned = true ∧
    (screencastAreaAsync env reg sender x y w h fmt tpl).2.isReturned = true ∧
    ((screencastAsync env reg sender fmt tpl).2 =
        .returned true (generateFilename fmt tpl).filename ∨
      (screencastAsync env reg sender fmt tpl).2 = .returned false "") ∧
    ((screencastAreaAsync env reg sender x y w h fmt tpl).2 =
        .returned true (generateFilename fmt tpl).filename ∨
      (screencastAreaAsync env reg sender x y w h fmt tpl).2 =
        .returned false "") := by
  obtain ⟨p, hp⟩ := hs
  rcases env with ⟨ld, cs, rc, sr⟩
  simp only at hp
  subst hp
  cases ld <;> rcases rc with e | u <;> rcases sr with e2 | u2 <;>
    by_cases hm : sender ∈ reg.recorders <;>
      simp [screencastAsync, screencastAreaAsync, CallOutcome.isReturned, hm]

/-- A call environment in which every external step succeeds. -/
def envAllOk : ScreencastCallEnv :=
  { lockdownDisableSaveToDisk := false,
    createSessionResult := .ok "/org/gnome/Mutter/ScreenCast/Session/u1",
    recorderCtorResult := .ok (), startRecordingResult := .ok () }

/-- C5 witness: on an all-successful environment the screencast call
resolves the invocation. -/
theorem c5_witness :
    (screencastAsync envAllOk emptyRegistry ":1.7" (fun s => s)
      "rec.webm").2.isReturned = true :=
  (c5_control_surface_amended envAllOk emptyRegistry ":1.7" 0 0 100 100
    (fun s => s) "rec.webm" ⟨_, rfl⟩).1

/-- C7: template expansion maps `%d` to the datetime service's
rendering of the `%Y-%m-%d` (date) format, `%t` to that of the
`%H-%M-%S` (time) format, `%%` to a literal `%`, and any other escape
to nothing but a logged warning for the dropped character; in
particular `100%%done` expands to `100%done` and `%z` expands to the
empty string with a warning for `z` and no literal `z`. -/
theorem c7_template_expansion (fmt : String → String) (c : Char) (acc : GenAcc)
    (h1 : c ≠ '%') (h2 : c ≠ 'd') (h3 : c ≠ 't') (h4 : acc.escape = true) :
    (generateFilename fmt "%d").filename = fmt "%Y-%m-%d" ∧
    (generateFilename fmt "%t").filename = fmt "%H-%M-%S" ∧
    (generateFilename fmt "%%").filename = "%" ∧
    (generateFilename fmt "100%%done").filename = "100%done" ∧
    (generateFilename fmt "%z").filename = "" ∧
    (generateFilename fmt "%z").warnings = ['z'] ∧
    processTemplateChar fmt acc c =
      { acc with warnings := acc.warnings ++ [c], escape := false } := by
  refine ⟨?_, ?_, rfl, rfl, rfl, rfl, ?_⟩
  · simp [generateFilename, processTemplateChar, String.empty_append]
  · simp [generateFilename, processTemplateChar, String.empty_append]
  · simp [processTemplateChar, h1, h2, h3, h4]

/-- C7 witness: the unknown escape `%z` is dropped (here from an
escape-pending accumulator with `z` as the next character). -/
theorem c7_witness :
    processTemplateChar (fun s => s) ⟨"x", true, []⟩ 'z' =
      { filename := "x", escape := false, warnings := ['z'] } :=
  (c7_template_expansion (fun s => s) 'z' ⟨"x", true, []⟩ (by decide)
    (by decide) (by decide) rfl).2.2.2.2.2.2

/-- C10: a template that ends in a single unescaped `%` expands to the
expansion of the rest of the template followed by a literal `%` — the
dangling escape is emitted, not dropped. -/
theorem c10_trailing_percent (fmt : String → String) (pre : String)
    (h : (pre.toList.foldl (processTemplateChar fmt) ⟨"", false, []⟩).escape
      = false) :
    (generateFilename fmt (pre ++ "%")).filename =
      (generateFilename fmt pre).filename ++ "%" := by
  have ht : (pre ++ "%").toList = pre.toList ++ ['%'] := by
    show (pre ++ "%").data = pre.data ++ ['%']
    rw [String.data_append]
  have h2 : (List.foldl (processTemplateChar fmt)
      { filename := "", escape := false, warnings := [] } pre.data).escape
        = false := h
  unfold generateFilename
  rw [ht, List.foldl_append]
  simp [processTemplateChar, h2]

/-- C10 witness: `abc%` expands to `abc%`. -/
theorem c10_witness :
    (generateFilename (fun s => s) ("abc" ++ "%")).filename =
      (generateFilename (fun s => s) "abc").filename ++ "%" :=
  c10_trailing_percent (fun s => s) "abc" (by decide)

/-- The keep-alive invariant: the hold count sits exactly one above
its baseline while the recorder map is non-empty. -/
def regInv (base : Nat) (reg : Registry) : Prop :=
  reg.holdCount = base + (if reg.recorders = [] then 0 else 1)

/-- Adding a sender that is not yet registered preserves the
keep-alive invariant. -/
lemma addRecorder_inv (base : Nat) (reg : Registry) (s : String)
    (hinv : regInv base reg) (hg : reg.recorders.contains s = false) :
    regInv base (addRecorder reg s) := by
  rcases reg with ⟨m, c⟩
  have hg2 : s ∉ m := by simpa using hg
  have hset : mapSet m s = m ++ [s] := by simp [mapSet, hg2]
  simp only [regInv] at hinv ⊢
  simp only [addRecorder, hset]
  cases m with
  | nil => simp at hinv ⊢; omega
  | cons a t =>
    have hlen : ¬((a :: t) ++ [s]).length = 1 := by simp
    rw [if_neg hlen]
    simp only [List.cons_append] at hinv ⊢
    simp at hinv ⊢
    omega

/-- Removing any sender preserves the keep-alive invariant. -/
lemma removeRecorder_inv (base : Nat) (reg : Registry) (s : String)
    (hinv : regInv base reg) : regInv base (removeRecorder reg s) := by
  rcases reg with ⟨m, c⟩
  by_cases hc : m.contains s = true
  · have hmem : s ∈ m := by simpa using hc
    have hne : m ≠ [] := by
      intro hnil
      subst hnil
      simp at hmem
    simp only [regInv, if_neg hne] at hinv
    have hd : mapDelete m s = (true, m.filter (fun x => x ≠ s)) := by
      simp [mapDelete, hmem]
    simp only [removeRecorder, hd]
    rw [if_pos trivial]
    by_cases hf : m.filter (fun x => x ≠ s) = []
    · rw [if_pos (by rw [hf]; rfl)]
      simp only [regInv]
      rw [hf]
      simp
      omega
    · rw [if_neg (by simpa [List.length_eq_zero] using hf)]
      simp only [regInv]
      rw [if_neg hf]
      omega
  · have hmem : s ∉ m := by simpa using hc
    have hd : mapDelete m s = (false, m) := by
      simp [mapDelete, hmem]
    simp only [removeRecorder, hd]
    simpa using hinv

/-- Running a sequence of registry mutations in which every add
targets an unregistered sender preserves the keep-alive invariant. -/
lemma runRegOps_inv (base : Nat) (ops : List RegOp) :
    ∀ reg, regInv base reg → guardedOps reg ops = true →
      regInv base (runRegOps reg ops) := by
  induction ops with
  | nil => intro reg h _; exact h
  | cons op rest ih =>
    intro reg h hg
    cases op with
    | add s =>
      simp only [guardedOps, Bool.and_eq_true, Bool.not_eq_true'] at hg
      exact ih _ (addRecorder_inv base reg s h hg.1) hg.2
    | remove s =>
      simp only [guardedOps] at hg
      exact ih _ (removeRecorder_inv base reg s h) hg

/-- C8 counterexample: the keep-alive count is double-counted when the
sole registered sender is re-added (the `Map.set` keeps the size at 1,
so `hold()` fires again): after `add a; add a; remove a` starting from
an empty registry with count 0, the map is empty but the count is 1,
not the initial value. -/
theorem c8_counterexample :
    (runRegOps { recorders := [], holdCount := 0 } [.add "a"]).holdCount = 1 ∧
    (runRegOps { recorders := [], holdCount := 0 }
      [.add "a", .add "a"]).holdCount = 2 ∧
    runRegOps { recorders := [], holdCount := 0 }
      [.add "a", .add "a", .remove "a"] =
        { recorders := [], holdCount := 1 } ∧
    (runRegOps { recorders := [], holdCount := 0 }
      [.add "a", .add "a", .remove "a"]).holdCount ≠ 0 := by
  decide

/-- C8 (amended): along every sequence of adds and removes in which no
add targets an already-registered sender — the discipline the service
enforces by rejecting a begin-recording for an already-active client —
the keep-alive count is incremented exactly on the empty→non-empty
transition and decremented exactly on the reverse one: it stays at
baseline-plus-occupancy, returns to its initial value whenever the map
empties, a second (distinct) recorder does not increment it again, and
removing an absent client changes nothing.  Without that discipline,
re-adding the sole registered sender increments the count again. -/
theorem c8_keepalive_amended (base : Nat) (reg : Registry) (ops : List RegOp)
    (s : String) (hinv : regInv base reg)
    (hg : guardedOps reg ops = true) :
    regInv base (runRegOps reg ops) ∧
    ((runRegOps reg ops).recorders = [] →
      (runRegOps reg ops).holdCount = base) ∧
    (reg.recorders.contains s = false → removeRecorder reg s = reg) ∧
    (reg.recorders.contains s = false → reg.recorders ≠ [] →
      (addRecorder reg s).holdCount = reg.holdCount) ∧
    (reg.recorders = [] →
      (addRecorder reg s).holdCount = reg.holdCount + 1) := by
  have hmain := runRegOps_inv base ops reg hinv hg
  refine ⟨hmain, ?_, ?_, ?_, ?_⟩
  · intro hempty
    simp only [regInv, hempty, if_pos] at hmain
    simpa using hmain
  · intro hab
    have hab2 : s ∉ reg.recorders := by simpa using hab
    simp [removeRecorder, mapDelete, hab2]
  · intro hab hne
    rcases reg with ⟨m, c⟩
    have hab2 : s ∉ m := by simpa using hab
    have hset : mapSet m s = m ++ [s] := by simp [mapSet, hab2]
    simp only [addRecorder, hset]
    cases m with
    | nil => exact absurd rfl hne
    | cons a t => simp
  · intro hempty
    rcases reg with ⟨m, c⟩
    simp only at hempty
    subst hempty
    simp [addRecorder, mapSet]

/-- C8 witness: a guarded add/remove/add/remove sequence from an empty
registry keeps the invariant and returns the count to zero. -/
theorem c8_witness :
    regInv 0 (runRegOps { recorders := [], holdCount := 0 }
      [.add "a", .remove "a", .add "b", .remove "b"]) ∧
    (runRegOps { recorders := [], holdCount := 0 }
      [.add "a", .remove "a", .add "b", .remove "b"]).holdCount = 0 := by
  have h := c8_keepalive_amended 0 { recorders := [], holdCount := 0 }
    [.add "a", .remove "a", .add "b", .remove "b"] "x"
    (by simp [regInv]) (by decide)
  exact ⟨h.1, h.2.1 (by decide)⟩

/-- No sender survives its own removal from the key set. -/
lemma contains_filter_ne (m : List String) (k : String) :
    (m.filter (fun x => x ≠ k)).contains k = false := by
  induction m with
  | nil => rfl
  | cons a t ih =>
    by_cases h : a = k
    · simp [List.filter_cons, h, ih]
    · simpa [List.filter_cons, h, List.contains_cons, ih] using
        fun hh => h hh.symm

/-- C9: ending a recording for a sender with no active recording
replies `false` and touches nothing; for a registered sender it always
replies `true` and removes that sender's recorder from the registry,
with a `stopRecording` failure only producing a log line — never
changing the reply. -/
theorem c9_stop_screencast (reg : Registry) (sender : String)
    (stopRes : Except String Unit) :
    (reg.recorders.contains sender = false →
      stopScreencastAsync reg sender stopRes = (reg, false, [])) ∧
    (reg.recorders.contains sender = true →
      (stopScreencastAsync reg sender stopRes).2.1 = true ∧
      (stopScreencastAsync reg sender stopRes).1 = removeRecorder reg sender ∧
      (stopScreencastAsync reg sender stopRes).1.recorders.contains sender
        = false ∧
      (∀ e, stopScreencastAsync reg sender (.error e) =
        (removeRecorder reg sender, true,
          [Action.logError ("Error while stopping recorder: " ++ e)])) ∧
      stopScreencastAsync reg sender (.ok ()) =
        (removeRecorder reg sender, true, [])) := by
  constructor
  · intro h
    have h2 : sender ∉ reg.recorders := by simpa using h
    simp [stopScreencastAsync, h2]
  · intro h
    have h2 : sender ∈ reg.recorders := by simpa using h
    have heq : ∀ res : Except String Unit,
        stopScreencastAsync reg sender res =
          (removeRecorder reg sender, true,
            match res with
            | .error e =>
              [Action.logError ("Error while stopping recorder: " ++ e)]
            | .ok _ => []) := by
      intro res
      simp [stopScreencastAsync, h2]
    have hrm : (removeRecorder reg sender).recorders.contains sender
        = false := by
      rcases reg with ⟨m, c⟩
      have h3 : sender ∈ m := by simpa using h
      have hrec : (removeRecorder { recorders := m, holdCount := c }
          sender).recorders = m.filter (fun x => x ≠ sender) := by
        simp [removeRecorder, mapDelete, h3, apply_ite Registry.recorders]
      rw [hrec]
      exact contains_filter_ne m sender
    refine ⟨?_, ?_, ?_, ?_, ?_⟩
    · rw [heq]
    · rw [heq]
    · rw [heq]
      exact hrm
    · intro e
      rw [heq]
    · rw [heq]

/-- C9 witness: for the registry holding only sender `a`, ending the
recording with a failing `stopRecording` still replies `true`, removes
`a` and only logs. -/
theorem c9_witness :
    stopScreencastAsync { recorders := ["a"], holdCount := 1 } "a"
      (.error "boom") =
      (removeRecorder { recorders := ["a"], holdCount := 1 } "a", true,
        [Action.logError ("Error while stopping recorder: " ++ "boom")]) :=
  ((c9_stop_screencast { recorders := ["a"], holdCount := 1 } "a"
    (.error "boom")).2 (by decide)).2.2.2.1 "boom"

end Screencast
